import Mathlib

/-!
Shallow embedding of `favicon.go` from mavolin/gin-favicon.

The imaging primitives (`imaging.Decode`, `imaging.Resize`, `imaging.Encode`)
and the HTTP router are external collaborators of the package; they are
modelled as an abstract capability record `Imaging` over an abstract raster
type, and route registration (`gin.RouterGroup.GET`) is modelled as explicit
state passing of the list of routes registered by the setup call. Every
registration the Go code performs uses `r.GET`, so a route records the
relative path passed to `GET`, the content type and the body bytes of the
`gctx.Data(http.StatusOK, mime, data)` responder closure. Byte slices are
`List Nat`; for the ASCII documents the code produces, `strBytes`
(codepoint list) coincides with the UTF-8 bytes Go serves.
-/

set_option autoImplicit false
set_option maxRecDepth 100000

namespace Favicon

/-- Resampling filters of the `imaging` collaborator; the package only uses
`imaging.Lanczos`. -/
inductive Filter where
  | Lanczos
  deriving DecidableEq

/-- Encoding formats of the `imaging` collaborator; the package only uses
`imaging.PNG`. -/
inductive Format where
  | PNG
  deriving DecidableEq

/-- The imaging capability consumed by the package:
`decode(bytes) -> Raster | error`, `resize(Raster, w, h, filter) -> Raster`,
`encode(Raster, format) -> bytes | error`, over an abstract raster type. -/
structure Imaging (Img : Type) where
  decode : List Nat → Except String Img
  resize : Img → Nat → Nat → Filter → Img
  encode : Img → Format → Except String (List Nat)

/-- Errors a setup call can return, tagged by the collaborator call that
produced them (the Go code returns the collaborator's error unchanged; the
tag records its provenance). -/
inductive SetupError where
  | decodeError (msg : String)
  | encodeError (msg : String)
  deriving DecidableEq

/-- `Options` of `favicon.go`. Go's `[]byte` distinguishes `nil` from a
non-nil empty slice, so `AppleTouchIcon` is an `Option`: `none` is Go `nil`,
`some []` is a non-nil empty slice. -/
structure Options where
  Name : String
  ShortName : String
  Display : String
  StartURL : String
  ThemeColor : String
  BackgroundColor : String
  TileColor : String
  Favicon : List Nat
  AppleTouchIcon : Option (List Nat)
  deriving DecidableEq

/-- A `gin.RouterGroup`, as far as the package uses it: its base path
(`r.BasePath()`). Registered routes are threaded explicitly. -/
structure RouterGroup where
  basePath : String
  deriving DecidableEq

/-- One route registered with `r.GET(path, handler)`: the relative path
passed to `GET`, and the content type and body of the
`gctx.Data(http.StatusOK, mime, data)` handler. All handlers are GET. -/
structure Route where
  path : String
  contentType : String
  body : List Nat
  deriving DecidableEq

/-- Codepoints of a string; equal to the UTF-8 bytes for the ASCII
documents the package generates. -/
def strBytes (s : String) : List Nat :=
  s.data.map Char.toNat

/-- `addIconOptions` of `favicon.go`. -/
structure addIconOptions (Img : Type) where
  name : String
  img : Img
  size : Nat
  format : Format
  mime : String

/-- `addIcon` of `favicon.go` (lines 242-258): resize to `size`×`size` with
Lanczos, encode, then register `GET /`+name serving the bytes with the
descriptor's mime type. On encode failure the error is returned and nothing
is registered. -/
def addIcon {Img : Type} (M : Imaging Img) (routes : List Route)
    (o : addIconOptions Img) : List Route × Option SetupError :=
  match M.encode (M.resize o.img o.size o.size Filter.Lanczos) o.format with
  | Except.error e => (routes, some (SetupError.encodeError e))
  | Except.ok data =>
      (routes ++ [Route.mk ("/" ++ o.name) o.mime data], none)

/-- `addAppleTouchIcon` of `favicon.go`. -/
def addAppleTouchIcon {Img : Type} (M : Imaging Img) (routes : List Route)
    (img : Img) : List Route × Option SetupError :=
  addIcon M routes (addIconOptions.mk "apple-touch-icon.png" img 180 Format.PNG "image/png")

/-- `addFavicon` of `favicon.go`: the three classic favicons, in order,
aborting at the first failure. -/
def addFavicon {Img : Type} (M : Imaging Img) (routes : List Route)
    (img : Img) : List Route × Option SetupError :=
  match addIcon M routes (addIconOptions.mk "favicon.png" img 48 Format.PNG "image/png") with
  | (rs, some e) => (rs, some e)
  | (rs, none) =>
    match addIcon M rs (addIconOptions.mk "favicon-32x32.png" img 32 Format.PNG "image/png") with
    | (rs2, some e) => (rs2, some e)
    | (rs2, none) =>
        addIcon M rs2 (addIconOptions.mk "favicon-16x16.png" img 16 Format.PNG "image/png")

/-- The `webmanifest` struct of `favicon.go`. Go's field `Type` is spelled
`Type'` here because `Type` is a Lean keyword. -/
structure webmanifestIcon where
  Src : String
  Sizes : String
  Type' : String
  deriving DecidableEq

/-- The `webmanifest` struct of `favicon.go`. -/
structure webmanifest where
  Name : String
  ShortName : String
  Display : String
  StartURL : String
  BackgroundColor : String
  ThemeColor : String
  Icons : List webmanifestIcon
  deriving DecidableEq

/-- Lower-case hex digit, as `encoding/json` uses. -/
def hexDigit (n : Nat) : Char :=
  if n < 10 then Char.ofNat (48 + n) else Char.ofNat (87 + n)

/-- Two lower-case hex digits of a byte. -/
def hexByte (n : Nat) : String :=
  String.mk [hexDigit (n / 16), hexDigit (n % 16)]

/-- Escaping of one character inside a JSON string, following Go's
`encoding/json` defaults (HTML escaping on). -/
def jsonEscapeChar (c : Char) : String :=
  if c = '"' then "\\\""
  else if c = '\\' then "\\\\"
  else if c = '\n' then "\\n"
  else if c = '\r' then "\\r"
  else if c = '\t' then "\\t"
  else if c = '<' then "\\u003c"
  else if c = '>' then "\\u003e"
  else if c = '&' then "\\u0026"
  else if c.toNat < 32 then "\\u00" ++ hexByte c.toNat
  else if c.toNat = 0x2028 then "\\u2028"
  else if c.toNat = 0x2029 then "\\u2029"
  else String.singleton c

/-- A JSON string literal for `s`, as `encoding/json` renders it. -/
def jsonQuote (s : String) : String :=
  "\"" ++ String.join (s.data.map jsonEscapeChar) ++ "\""

/-- `encoding/json` marshalling of one `webmanifestIcon`. -/
def marshalIcon (i : webmanifestIcon) : String :=
  "\x7b\"src\":" ++ jsonQuote i.Src ++ ",\"sizes\":" ++ jsonQuote i.Sizes ++
    ",\"type\":" ++ jsonQuote i.Type' ++ "\x7d"

/-- The fields `encoding/json` emits for a `webmanifest` value, in struct
order, as (key, rendered value) pairs. `StartURL` carries the tag
`json:"start_url,omitempty"`, so the field is omitted when the string is
empty. All other fields are always present. -/
def webmanifestFields (m : webmanifest) : List (String × String) :=
  [("name", jsonQuote m.Name), ("short_name", jsonQuote m.ShortName),
    ("display", jsonQuote m.Display)] ++
  (if m.StartURL = "" then [] else [("start_url", jsonQuote m.StartURL)]) ++
  [("background_color", jsonQuote m.BackgroundColor),
    ("theme_color", jsonQuote m.ThemeColor),
    ("icons", "[" ++ String.intercalate "," (m.Icons.map marshalIcon) ++ "]")]

/-- One `"key":value` pair as `marshalWebmanifest` emits it. -/
def renderField (f : String × String) : String :=
  jsonQuote f.1 ++ ":" ++ f.2

/-- `json.Marshal` of a `webmanifest` value. (`json.Marshal` cannot fail on
a struct of plain strings, so it is modelled total; the Go error branch is
dead for this type.) -/
def marshalWebmanifest (m : webmanifest) : String :=
  "\x7b" ++
    String.intercalate "," ((webmanifestFields m).map renderField) ++
  "\x7d"

/-- `strings.HasSuffix`, over the characters of the strings. -/
def hasSuffix (s suffix : String) : Bool :=
  List.isSuffixOf suffix.data s.data

/-- The manifest value built by `addWebmanifest` (lines 141-175): base path
normalized to end in "/", struct literal from the options (note:
`ThemeColor` and `BackgroundColor` are NOT copied from the options by the
struct literal — they start as the zero value ""), icon srcs for the two
android-chrome icons (the second with an extra "/"), then the three
empty-string default substitutions the code performs. -/
def buildWebmanifest (r : RouterGroup) (o : Options) : webmanifest :=
  let path := if hasSuffix r.basePath "/" then r.basePath else r.basePath ++ "/"
  let manifest : webmanifest :=
    { Name := o.Name
      ShortName := o.ShortName
      Display := o.Display
      StartURL := o.StartURL
      BackgroundColor := ""
      ThemeColor := ""
      Icons := [webmanifestIcon.mk (path ++ "android-chrome-192x192.png") "192x192" "image/png",
                webmanifestIcon.mk (path ++ "/android-chrome-512x512.png") "512x512" "image/png"] }
  let manifest := if manifest.Display = "" then { manifest with Display := "standalone" } else manifest
  let manifest := if manifest.ThemeColor = "" then { manifest with ThemeColor := "#ffffff" } else manifest
  let manifest := if manifest.BackgroundColor = "" then { manifest with BackgroundColor := "#ffffff" } else manifest
  manifest

/-- `addWebmanifest` of `favicon.go`: marshal the manifest, register
`GET /site.webmanifest` serving it as `application/manifest+json`, then add
the two android-chrome icons, aborting at the first failure. -/
def addWebmanifest {Img : Type} (M : Imaging Img) (r : RouterGroup)
    (routes : List Route) (img : Img) (o : Options) :
    List Route × Option SetupError :=
  let manifestJSON := marshalWebmanifest (buildWebmanifest r o)
  let routes := routes ++
    [Route.mk "/site.webmanifest" "application/manifest+json" (strBytes manifestJSON)]
  match addIcon M routes (addIconOptions.mk "android-chrome-192x192.png" img 192 Format.PNG "image/png") with
  | (rs, some e) => (rs, some e)
  | (rs, none) =>
      addIcon M rs (addIconOptions.mk "android-chrome-512x512.png" img 512 Format.PNG "image/png")

/-- The fixed part of the browserconfig XML before the tile color (Go raw
string literal, lines 211-216), containing the hard-coded root-relative
`src="/mstile-150x150.png"` reference. -/
def browserConfigHead : String :=
  "<?xml version=\"1.0\" encoding=\"utf-8\"?>\n<browserconfig>\n    <msapplication>\n        <tile>\n            <square150x150logo src=\"/mstile-150x150.png\"/>\n            <TileColor>"

/-- The fixed part of the browserconfig XML after the tile color. -/
def browserConfigTail : String :=
  "</TileColor>\n        </tile>\n    </msapplication>\n</browserconfig>"

/-- The browserconfig document: Go builds it as
`` `...<TileColor>` + tileColor + `</TileColor>...` ``. -/
def browserConfigDoc (tileColor : String) : String :=
  browserConfigHead ++ tileColor ++ browserConfigTail

/-- `addBrowserConfig` of `favicon.go`: default the tile color, register
`GET /browserconfig.xml` serving the document as `application/xml`, then
add the mstile icon. -/
def addBrowserConfig {Img : Type} (M : Imaging Img) (routes : List Route)
    (img : Img) (tileColor : String) : List Route × Option SetupError :=
  let tileColor := if tileColor = "" then "#da532c" else tileColor
  let routes := routes ++
    [Route.mk "/browserconfig.xml" "application/xml" (strBytes (browserConfigDoc tileColor))]
  addIcon M routes (addIconOptions.mk "mstile-150x150.png" img 150 Format.PNG "image/png")

/-- Lines 57-63 of `Add`: the apple-touch-icon raster is the favicon raster
when `AppleTouchIcon` is Go-`nil`, and otherwise the result of decoding the
`AppleTouchIcon` bytes (which may fail). -/
def decodeAppleTouchIcon {Img : Type} (M : Imaging Img) (o : Options)
    (faviconImg : Img) : Except String Img :=
  match o.AppleTouchIcon with
  | none => Except.ok faviconImg
  | some b => M.decode b

/-- The body of `Add` after both decodes succeeded: the four add calls in
source order, aborting at the first failure, starting from no routes
registered by this call. -/
def addAll {Img : Type} (M : Imaging Img) (r : RouterGroup) (o : Options)
    (faviconImg appleTouchIconImg : Img) : List Route × Option SetupError :=
  match addAppleTouchIcon M [] appleTouchIconImg with
  | (rs, some e) => (rs, some e)
  | (rs, none) =>
    match addFavicon M rs faviconImg with
    | (rs2, some e) => (rs2, some e)
    | (rs2, none) =>
      match addWebmanifest M r rs2 faviconImg o with
      | (rs3, some e) => (rs3, some e)
      | (rs3, none) => addBrowserConfig M rs3 faviconImg o.TileColor

/-- `Add` of `favicon.go` (lines 51-78). The returned list is the routes
registered on the router group by this call at the moment it returns (Go
registration is a side effect on the group, so routes registered before a
failure remain registered). -/
def Add {Img : Type} (M : Imaging Img) (r : RouterGroup) (o : Options) :
    List Route × Option SetupError :=
  match M.decode o.Favicon with
  | Except.error e => ([], some (SetupError.decodeError e))
  | Except.ok faviconImg =>
    match decodeAppleTouchIcon M o faviconImg with
    | Except.error e => ([], some (SetupError.decodeError e))
    | Except.ok appleTouchIconImg => addAll M r o faviconImg appleTouchIconImg

/-! ## Concrete capability instances and inputs, used to instantiate the
abstract theorems on executable data. -/

/-- A toy raster type: a pair of dimensions. -/
def okImaging : Imaging (Nat × Nat) where
  decode := fun b => if b = [] then Except.error "empty" else Except.ok (b.length, b.length)
  resize := fun _ w h _ => (w, h)
  encode := fun i _ => Except.ok [i.1, i.2]

/-- Like `okImaging`, but encoding a 16-pixel-wide raster fails: exercises
an encode failure in the middle of the pipeline (at `favicon-16x16.png`). -/
def enc16Imaging : Imaging (Nat × Nat) where
  decode := fun b => if b = [] then Except.error "empty" else Except.ok (b.length, b.length)
  resize := fun _ w h _ => (w, h)
  encode := fun i _ => if i.1 = 16 then Except.error "enc" else Except.ok [i.1, i.2]

/-- A router group mounted at the root path. -/
def rgRoot : RouterGroup := RouterGroup.mk "/"

/-- Options with name "App", every optional string unset, a decodable
one-byte favicon and no apple-touch icon. -/
def oApp : Options :=
  Options.mk "App" "" "" "" "" "" "" [1] none

/-! ## Inversion lemmas for the setup pipeline -/

lemma path_lit_touch : ("/" ++ "apple-touch-icon.png" : String) = "/apple-touch-icon.png" := rfl
lemma path_lit_48 : ("/" ++ "favicon.png" : String) = "/favicon.png" := rfl
lemma path_lit_32 : ("/" ++ "favicon-32x32.png" : String) = "/favicon-32x32.png" := rfl
lemma path_lit_16 : ("/" ++ "favicon-16x16.png" : String) = "/favicon-16x16.png" := rfl
lemma path_lit_192 : ("/" ++ "android-chrome-192x192.png" : String) = "/android-chrome-192x192.png" := rfl
lemma path_lit_512 : ("/" ++ "android-chrome-512x512.png" : String) = "/android-chrome-512x512.png" := rfl
lemma path_lit_150 : ("/" ++ "mstile-150x150.png" : String) = "/mstile-150x150.png" := rfl

lemma addIcon_ok_inv {Img : Type} {M : Imaging Img} {routes rs : List Route}
    {o : addIconOptions Img} (h : addIcon M routes o = (rs, none)) :
    ∃ b, M.encode (M.resize o.img o.size o.size Filter.Lanczos) o.format = Except.ok b ∧
      rs = routes ++ [Route.mk ("/" ++ o.name) o.mime b] := by
  unfold addIcon at h
  split at h
  · simp at h
  · rename_i b heq
    simp only [Prod.mk.injEq] at h
    exact ⟨b, heq, h.1.symm⟩

lemma addIcon_err_inv {Img : Type} {M : Imaging Img} {routes rs : List Route}
    {o : addIconOptions Img} {e : SetupError} (h : addIcon M routes o = (rs, some e)) :
    (∃ m, e = SetupError.encodeError m) ∧ rs = routes := by
  unfold addIcon at h
  split at h
  · rename_i m heq
    simp only [Prod.mk.injEq, Option.some.injEq] at h
    exact ⟨⟨m, h.2.symm⟩, h.1.symm⟩
  · simp at h

lemma addFavicon_ok_inv {Img : Type} {M : Imaging Img} {routes rs : List Route}
    {img : Img} (h : addFavicon M routes img = (rs, none)) :
    ∃ b48 b32 b16,
      M.encode (M.resize img 48 48 Filter.Lanczos) Format.PNG = Except.ok b48 ∧
      M.encode (M.resize img 32 32 Filter.Lanczos) Format.PNG = Except.ok b32 ∧
      M.encode (M.resize img 16 16 Filter.Lanczos) Format.PNG = Except.ok b16 ∧
      rs = routes ++ [Route.mk "/favicon.png" "image/png" b48,
                      Route.mk "/favicon-32x32.png" "image/png" b32,
                      Route.mk "/favicon-16x16.png" "image/png" b16] := by
  unfold addFavicon at h
  split at h
  · simp at h
  · rename_i rs1 heq1
    split at h
    · simp at h
    · rename_i rs2 heq2
      obtain ⟨b48, e48, h1⟩ := addIcon_ok_inv heq1
      obtain ⟨b32, e32, h2⟩ := addIcon_ok_inv heq2
      obtain ⟨b16, e16, h3⟩ := addIcon_ok_inv h
      subst h1 h2 h3
      exact ⟨b48, b32, b16, e48, e32, e16, by
        simp [path_lit_48, path_lit_32, path_lit_16]⟩

lemma addWebmanifest_ok_inv {Img : Type} {M : Imaging Img} {r : RouterGroup}
    {routes rs : List Route} {img : Img} {o : Options}
    (h : addWebmanifest M r routes img o = (rs, none)) :
    ∃ b192 b512,
      M.encode (M.resize img 192 192 Filter.Lanczos) Format.PNG = Except.ok b192 ∧
      M.encode (M.resize img 512 512 Filter.Lanczos) Format.PNG = Except.ok b512 ∧
      rs = routes ++
        [Route.mk "/site.webmanifest" "application/manifest+json"
           (strBytes (marshalWebmanifest (buildWebmanifest r o))),
         Route.mk "/android-chrome-192x192.png" "image/png" b192,
         Route.mk "/android-chrome-512x512.png" "image/png" b512] := by
  simp only [addWebmanifest] at h
  split at h
  · simp at h
  · rename_i rs1 heq1
    obtain ⟨b192, e192, h1⟩ := addIcon_ok_inv heq1
    obtain ⟨b512, e512, h2⟩ := addIcon_ok_inv h
    subst h1 h2
    exact ⟨b192, b512, e192, e512, by
      simp [path_lit_192, path_lit_512]⟩

lemma addBrowserConfig_ok_inv {Img : Type} {M : Imaging Img}
    {routes rs : List Route} {img : Img} {tileColor : String}
    (h : addBrowserConfig M routes img tileColor = (rs, none)) :
    ∃ b150,
      M.encode (M.resize img 150 150 Filter.Lanczos) Format.PNG = Except.ok b150 ∧
      rs = routes ++
        [Route.mk "/browserconfig.xml" "application/xml"
           (strBytes (browserConfigDoc (if tileColor = "" then "#da532c" else tileColor))),
         Route.mk "/mstile-150x150.png" "image/png" b150] := by
  simp only [addBrowserConfig] at h
  obtain ⟨b150, e150, h1⟩ := addIcon_ok_inv h
  subst h1
  exact ⟨b150, e150, by simp [path_lit_150]⟩

lemma addAll_ok_inv {Img : Type} {M : Imaging Img} {r : RouterGroup} {o : Options}
    {fav ati : Img} {routes : List Route}
    (h : addAll M r o fav ati = (routes, none)) :
    ∃ b180 b48 b32 b16 b192 b512 b150,
      M.encode (M.resize ati 180 180 Filter.Lanczos) Format.PNG = Except.ok b180 ∧
      M.encode (M.resize fav 48 48 Filter.Lanczos) Format.PNG = Except.ok b48 ∧
      M.encode (M.resize fav 32 32 Filter.Lanczos) Format.PNG = Except.ok b32 ∧
      M.encode (M.resize fav 16 16 Filter.Lanczos) Format.PNG = Except.ok b16 ∧
      M.encode (M.resize fav 192 192 Filter.Lanczos) Format.PNG = Except.ok b192 ∧
      M.encode (M.resize fav 512 512 Filter.Lanczos) Format.PNG = Except.ok b512 ∧
      M.encode (M.resize fav 150 150 Filter.Lanczos) Format.PNG = Except.ok b150 ∧
      routes =
        [Route.mk "/apple-touch-icon.png" "image/png" b180,
         Route.mk "/favicon.png" "image/png" b48,
         Route.mk "/favicon-32x32.png" "image/png" b32,
         Route.mk "/favicon-16x16.png" "image/png" b16,
         Route.mk "/site.webmanifest" "application/manifest+json"
           (strBytes (marshalWebmanifest (buildWebmanifest r o))),
         Route.mk "/android-chrome-192x192.png" "image/png" b192,
         Route.mk "/android-chrome-512x512.png" "image/png" b512,
         Route.mk "/browserconfig.xml" "application/xml"
           (strBytes (browserConfigDoc (if o.TileColor = "" then "#da532c" else o.TileColor))),
         Route.mk "/mstile-150x150.png" "image/png" b150] := by
  unfold addAll at h
  split at h
  · simp at h
  · rename_i rs1 heq1
    split at h
    · simp at h
    · rename_i rs2 heq2
      split at h
      · simp at h
      · rename_i rs3 heq3
        obtain ⟨b180, e180, h1⟩ := addIcon_ok_inv heq1
        obtain ⟨b48, b32, b16, e48, e32, e16, h2⟩ := addFavicon_ok_inv heq2
        obtain ⟨b192, b512, e192, e512, h3⟩ := addWebmanifest_ok_inv heq3
        obtain ⟨b150, e150, h4⟩ := addBrowserConfig_ok_inv h
        subst h1 h2 h3 h4
        exact ⟨b180, b48, b32, b16, b192, b512, b150,
          e180, e48, e32, e16, e192, e512, e150, by
            simp [path_lit_touch]⟩

lemma Add_ok_inv {Img : Type} {M : Imaging Img} {r : RouterGroup} {o : Options}
    {routes : List Route} (h : Add M r o = (routes, none)) :
    ∃ fav ati, M.decode o.Favicon = Except.ok fav ∧
      decodeAppleTouchIcon M o fav = Except.ok ati ∧
      addAll M r o fav ati = (routes, none) := by
  unfold Add at h
  split at h
  · simp at h
  · rename_i fav hfav
    split at h
    · simp at h
    · rename_i ati hati
      exact ⟨fav, ati, hfav, hati, h⟩

lemma addFavicon_err_kind {Img : Type} {M : Imaging Img} {routes rs : List Route}
    {img : Img} {e : SetupError} (h : addFavicon M routes img = (rs, some e)) :
    ∃ m, e = SetupError.encodeError m := by
  unfold addFavicon at h
  split at h
  · rename_i rs1 e1 heq
    simp only [Prod.mk.injEq, Option.some.injEq] at h
    obtain ⟨⟨m, hm⟩, -⟩ := addIcon_err_inv heq
    exact ⟨m, by rw [← h.2]; exact hm⟩
  · rename_i rs1 heq1
    split at h
    · rename_i rs2 e2 heq2
      simp only [Prod.mk.injEq, Option.some.injEq] at h
      obtain ⟨⟨m, hm⟩, -⟩ := addIcon_err_inv heq2
      exact ⟨m, by rw [← h.2]; exact hm⟩
    · rename_i rs2 heq2
      obtain ⟨⟨m, hm⟩, -⟩ := addIcon_err_inv h
      exact ⟨m, hm⟩

lemma addWebmanifest_err_kind {Img : Type} {M : Imaging Img} {r : RouterGroup}
    {routes rs : List Route} {img : Img} {o : Options} {e : SetupError}
    (h : addWebmanifest M r routes img o = (rs, some e)) :
    ∃ m, e = SetupError.encodeError m := by
  simp only [addWebmanifest] at h
  split at h
  · rename_i rs1 e1 heq
    simp only [Prod.mk.injEq, Option.some.injEq] at h
    obtain ⟨⟨m, hm⟩, -⟩ := addIcon_err_inv heq
    exact ⟨m, by rw [← h.2]; exact hm⟩
  · rename_i rs1 heq1
    obtain ⟨⟨m, hm⟩, -⟩ := addIcon_err_inv h
    exact ⟨m, hm⟩

lemma addBrowserConfig_err_kind {Img : Type} {M : Imaging Img}
    {routes rs : List Route} {img : Img} {tileColor : String} {e : SetupError}
    (h : addBrowserConfig M routes img tileColor = (rs, some e)) :
    ∃ m, e = SetupError.encodeError m := by
  simp only [addBrowserConfig] at h
  obtain ⟨⟨m, hm⟩, -⟩ := addIcon_err_inv h
  exact ⟨m, hm⟩

lemma addAll_err_kind {Img : Type} {M : Imaging Img} {r : RouterGroup} {o : Options}
    {fav ati : Img} {rs : List Route} {e : SetupError}
    (h : addAll M r o fav ati = (rs, some e)) :
    ∃ m, e = SetupError.encodeError m := by
  unfold addAll at h
  split at h
  · rename_i rs1 e1 heq
    unfold addAppleTouchIcon at heq
    simp only [Prod.mk.injEq, Option.some.injEq] at h
    obtain ⟨⟨m, hm⟩, -⟩ := addIcon_err_inv heq
    exact ⟨m, by rw [← h.2]; exact hm⟩
  · rename_i rs1 heq1
    split at h
    · rename_i rs2 e2 heq2
      simp only [Prod.mk.injEq, Option.some.injEq] at h
      obtain ⟨m, hm⟩ := addFavicon_err_kind heq2
      exact ⟨m, by rw [← h.2]; exact hm⟩
    · rename_i rs2 heq2
      split at h
      · rename_i rs3 e3 heq3
        simp only [Prod.mk.injEq, Option.some.injEq] at h
        obtain ⟨m, hm⟩ := addWebmanifest_err_kind heq3
        exact ⟨m, by rw [← h.2]; exact hm⟩
      · rename_i rs3 heq3
        exact addBrowserConfig_err_kind h

/-! ## Claim C4 -/

/-- C4 counterexample: with an imaging capability whose encode step fails
exactly for the 16-pixel target, the setup call returns an (encode) error,
yet the routes registered before the failing step — the apple-touch icon
and the first two classic favicons — remain registered: setup does perform
partial registration on a mid-pipeline encode failure. -/
theorem c4_counterexample :
    (Add enc16Imaging rgRoot oApp).2 = some (SetupError.encodeError "enc") ∧
      (Add enc16Imaging rgRoot oApp).1 ≠ [] :=
  ⟨rfl, by decide⟩

/-- C4 (amended): if the setup call returns a decode-kind error, no handler
registered by that call remains reachable (the route list is empty); an
encode-kind failure aborts setup and returns the error, but handlers
registered before the failing step remain registered. -/
theorem c4_decode_error_registers_nothing {Img : Type} (M : Imaging Img)
    (r : RouterGroup) (o : Options) (routes : List Route) (msg : String)
    (h : Add M r o = (routes, some (SetupError.decodeError msg))) :
    routes = [] := by
  unfold Add at h
  split at h
  · simp only [Prod.mk.injEq] at h
    exact h.1.symm
  · rename_i fav hfav
    split at h
    · simp only [Prod.mk.injEq] at h
      exact h.1.symm
    · rename_i ati hati
      obtain ⟨m, hm⟩ := addAll_err_kind h
      exact absurd hm (by simp)

/-- Witness for `c4_decode_error_registers_nothing` at a concrete input. -/
theorem c4_decode_error_registers_nothing_witness :
    Add okImaging rgRoot (Options.mk "App" "" "" "" "" "" "" [] none) =
      ([], some (SetupError.decodeError "empty")) ∧ ([] : List Route) = [] :=
  ⟨by rfl,
    c4_decode_error_registers_nothing okImaging rgRoot
      (Options.mk "App" "" "" "" "" "" "" [] none) [] "empty" (by rfl)⟩

/-! ## Claim C5 -/

/-- C5: if the primary source bytes do not decode, `Add` returns the decode
error (tagged as decode-kind) and registers zero routes. -/
theorem c5_undecodable_primary_registers_nothing {Img : Type} (M : Imaging Img)
    (r : RouterGroup) (o : Options) (e : String)
    (h : M.decode o.Favicon = Except.error e) :
    Add M r o = ([], some (SetupError.decodeError e)) := by
  unfold Add
  rw [h]

/-- Witness for `c5_undecodable_primary_registers_nothing`. -/
theorem c5_witness :
    okImaging.decode (Options.mk "App" "" "" "" "" "" "" [] none).Favicon =
      Except.error "empty" ∧
    Add okImaging rgRoot (Options.mk "App" "" "" "" "" "" "" [] none) =
      ([], some (SetupError.decodeError "empty")) :=
  ⟨by rfl,
    c5_undecodable_primary_registers_nothing okImaging rgRoot
      (Options.mk "App" "" "" "" "" "" "" [] none) "empty" (by rfl)⟩

/-! ## Claim C10 -/

/-- C10: a non-nil `AppleTouchIcon` that fails to decode (for example a
non-nil empty byte slice) makes `Add` return that decode error with zero
routes registered — it does not fall back to the primary favicon. -/
theorem c10_nonnil_undecodable_touch_is_error {Img : Type} (M : Imaging Img)
    (r : RouterGroup) (o : Options) (fav : Img) (b : List Nat) (e : String)
    (hfav : M.decode o.Favicon = Except.ok fav)
    (hb : o.AppleTouchIcon = some b)
    (hdec : M.decode b = Except.error e) :
    Add M r o = ([], some (SetupError.decodeError e)) := by
  unfold Add
  simp only [hfav]
  have hati : decodeAppleTouchIcon M o fav = Except.error e := by
    simp only [decodeAppleTouchIcon, hb]
    exact hdec
  simp only [hati]

/-- Witness for `c10_nonnil_undecodable_touch_is_error`: a non-nil empty
`AppleTouchIcon` slice next to a decodable favicon. -/
theorem c10_witness :
    okImaging.decode (Options.mk "App" "" "" "" "" "" "" [1] (some [])).Favicon =
      Except.ok (1, 1) ∧
    (Options.mk "App" "" "" "" "" "" "" [1] (some [])).AppleTouchIcon = some [] ∧
    okImaging.decode [] = Except.error "empty" ∧
    Add okImaging rgRoot (Options.mk "App" "" "" "" "" "" "" [1] (some [])) =
      ([], some (SetupError.decodeError "empty")) :=
  ⟨by rfl, by rfl, by rfl,
    c10_nonnil_undecodable_touch_is_error okImaging rgRoot
      (Options.mk "App" "" "" "" "" "" "" [1] (some [])) (1, 1) [] "empty"
      (by rfl) (by rfl) (by rfl)⟩

/-! ## Claim C6 -/

/-- `addAll` never reads `AppleTouchIcon` (the raster to use was already
chosen), so the options' `AppleTouchIcon` field is irrelevant to it. -/
lemma addAll_ati_irrelevant {Img : Type} (M : Imaging Img) (r : RouterGroup)
    (x y : Option (List Nat)) (o : Options) (a t : Img) :
    addAll M r { o with AppleTouchIcon := x } a t =
      addAll M r { o with AppleTouchIcon := y } a t := rfl

/-- Leaving `AppleTouchIcon` unset gives the same setup result as setting
it to the primary favicon bytes: both decode the same bytes to the same
raster, and the rest of the pipeline is identical. -/
lemma Add_atiNone_eq {Img : Type} (M : Imaging Img) (r : RouterGroup) (o : Options) :
    Add M r { o with AppleTouchIcon := none } =
      Add M r { o with AppleTouchIcon := some o.Favicon } := by
  unfold Add decodeAppleTouchIcon
  cases h : M.decode o.Favicon with
  | error e => simp [h]
  | ok fav =>
      simp only [h]
      exact addAll_ati_irrelevant M r none (some o.Favicon) o fav fav

/-- The body served at `/apple-touch-icon.png`, when that route was
registered. -/
def touchIconData (res : List Route × Option SetupError) : Option (List Nat) :=
  (res.1.find? (fun rt => rt.path == "/apple-touch-icon.png")).map Route.body

/-- C6: for a decodable primary image, setup with the alternate source
unset produces touch-icon bytes identical to setup with the alternate
explicitly set to the primary source bytes. -/
theorem c6_alternate_defaults_to_primary {Img : Type} (M : Imaging Img)
    (r : RouterGroup) (o : Options) (fav : Img)
    (_hfav : M.decode o.Favicon = Except.ok fav) :
    touchIconData (Add M r { o with AppleTouchIcon := none }) =
      touchIconData (Add M r { o with AppleTouchIcon := some o.Favicon }) :=
  congrArg touchIconData (Add_atiNone_eq M r o)

/-- Witness for `c6_alternate_defaults_to_primary`. -/
theorem c6_witness :
    okImaging.decode oApp.Favicon = Except.ok (1, 1) ∧
    touchIconData (Add okImaging rgRoot { oApp with AppleTouchIcon := none }) =
      touchIconData (Add okImaging rgRoot { oApp with AppleTouchIcon := some oApp.Favicon }) :=
  ⟨by rfl, c6_alternate_defaults_to_primary okImaging rgRoot oApp (1, 1) (by rfl)⟩

/-! ## Claim C1 -/

/-- C1: for every entry of the fixed catalog (apple-touch-icon.png 180,
favicon.png 48, favicon-32x32.png 32, favicon-16x16.png 16,
android-chrome-192x192.png 192, android-chrome-512x512.png 512,
mstile-150x150.png 150), a successful setup registers a GET route at "/"
plus the entry's name whose body is the PNG encoding of the appropriate
decoded raster (the alternate raster for the apple-touch icon, the primary
raster otherwise) resized to size×size with the Lanczos filter, served as
image/png. -/
theorem c1_catalog_assets {Img : Type} (M : Imaging Img) (r : RouterGroup)
    (o : Options) (fav ati : Img) (routes : List Route)
    (hfav : M.decode o.Favicon = Except.ok fav)
    (hati : decodeAppleTouchIcon M o fav = Except.ok ati)
    (hAdd : Add M r o = (routes, none)) :
    (∃ b, M.encode (M.resize ati 180 180 Filter.Lanczos) Format.PNG = Except.ok b ∧
        Route.mk "/apple-touch-icon.png" "image/png" b ∈ routes) ∧
    (∃ b, M.encode (M.resize fav 48 48 Filter.Lanczos) Format.PNG = Except.ok b ∧
        Route.mk "/favicon.png" "image/png" b ∈ routes) ∧
    (∃ b, M.encode (M.resize fav 32 32 Filter.Lanczos) Format.PNG = Except.ok b ∧
        Route.mk "/favicon-32x32.png" "image/png" b ∈ routes) ∧
    (∃ b, M.encode (M.resize fav 16 16 Filter.Lanczos) Format.PNG = Except.ok b ∧
        Route.mk "/favicon-16x16.png" "image/png" b ∈ routes) ∧
    (∃ b, M.encode (M.resize fav 192 192 Filter.Lanczos) Format.PNG = Except.ok b ∧
        Route.mk "/android-chrome-192x192.png" "image/png" b ∈ routes) ∧
    (∃ b, M.encode (M.resize fav 512 512 Filter.Lanczos) Format.PNG = Except.ok b ∧
        Route.mk "/android-chrome-512x512.png" "image/png" b ∈ routes) ∧
    (∃ b, M.encode (M.resize fav 150 150 Filter.Lanczos) Format.PNG = Except.ok b ∧
        Route.mk "/mstile-150x150.png" "image/png" b ∈ routes) := by
  unfold Add at hAdd
  rw [hfav] at hAdd
  simp only [hati] at hAdd
  obtain ⟨b180, b48, b32, b16, b192, b512, b150,
    e180, e48, e32, e16, e192, e512, e150, hroutes⟩ := addAll_ok_inv hAdd
  subst hroutes
  exact ⟨⟨b180, e180, by simp⟩, ⟨b48, e48, by simp⟩, ⟨b32, e32, by simp⟩,
    ⟨b16, e16, by simp⟩, ⟨b192, e192, by simp⟩, ⟨b512, e512, by simp⟩,
    ⟨b150, e150, by simp⟩⟩

/-- Witness for `c1_catalog_assets` on the concrete capability. -/
theorem c1_witness :
    okImaging.decode oApp.Favicon = Except.ok (1, 1) ∧
    decodeAppleTouchIcon okImaging oApp (1, 1) = Except.ok (1, 1) ∧
    Add okImaging rgRoot oApp = ((Add okImaging rgRoot oApp).1, none) ∧
    ((∃ b, okImaging.encode (okImaging.resize (1, 1) 180 180 Filter.Lanczos) Format.PNG = Except.ok b ∧
        Route.mk "/apple-touch-icon.png" "image/png" b ∈ (Add okImaging rgRoot oApp).1) ∧
     (∃ b, okImaging.encode (okImaging.resize (1, 1) 48 48 Filter.Lanczos) Format.PNG = Except.ok b ∧
        Route.mk "/favicon.png" "image/png" b ∈ (Add okImaging rgRoot oApp).1) ∧
     (∃ b, okImaging.encode (okImaging.resize (1, 1) 32 32 Filter.Lanczos) Format.PNG = Except.ok b ∧
        Route.mk "/favicon-32x32.png" "image/png" b ∈ (Add okImaging rgRoot oApp).1) ∧
     (∃ b, okImaging.encode (okImaging.resize (1, 1) 16 16 Filter.Lanczos) Format.PNG = Except.ok b ∧
        Route.mk "/favicon-16x16.png" "image/png" b ∈ (Add okImaging rgRoot oApp).1) ∧
     (∃ b, okImaging.encode (okImaging.resize (1, 1) 192 192 Filter.Lanczos) Format.PNG = Except.ok b ∧
        Route.mk "/android-chrome-192x192.png" "image/png" b ∈ (Add okImaging rgRoot oApp).1) ∧
     (∃ b, okImaging.encode (okImaging.resize (1, 1) 512 512 Filter.Lanczos) Format.PNG = Except.ok b ∧
        Route.mk "/android-chrome-512x512.png" "image/png" b ∈ (Add okImaging rgRoot oApp).1) ∧
     (∃ b, okImaging.encode (okImaging.resize (1, 1) 150 150 Filter.Lanczos) Format.PNG = Except.ok b ∧
        Route.mk "/mstile-150x150.png" "image/png" b ∈ (Add okImaging rgRoot oApp).1)) :=
  ⟨by rfl, by rfl, by rfl,
    c1_catalog_assets okImaging rgRoot oApp (1, 1) (1, 1)
      (Add okImaging rgRoot oApp).1 (by rfl) (by rfl) (by rfl)⟩

/-! ## Claim C9 -/

/-- C9 counterexample: a successful setup on a concrete capability
registers 9 handlers — the 7 catalog icons plus the two documents — not 11
(there is no 9-entry icon catalog). -/
theorem c9_counterexample :
    (Add okImaging rgRoot oApp).2 = none ∧
      (Add okImaging rgRoot oApp).1.length = 9 ∧
      ¬ (Add okImaging rgRoot oApp).1.length = 11 :=
  ⟨rfl, rfl, by decide⟩

/-- C9 (amended): a successful setup registers exactly one handler per
distinct path, the paths being the 7 catalog icon names plus
/site.webmanifest plus /browserconfig.xml, 9 handlers in total, in source
registration order. -/
theorem c9_nine_distinct_routes {Img : Type} (M : Imaging Img)
    (r : RouterGroup) (o : Options) (routes : List Route)
    (hAdd : Add M r o = (routes, none)) :
    routes.map Route.path =
      ["/apple-touch-icon.png", "/favicon.png", "/favicon-32x32.png",
       "/favicon-16x16.png", "/site.webmanifest", "/android-chrome-192x192.png",
       "/android-chrome-512x512.png", "/browserconfig.xml", "/mstile-150x150.png"] ∧
    routes.length = 9 ∧ (routes.map Route.path).Nodup := by
  obtain ⟨fav, ati, hfav, hati, hAll⟩ := Add_ok_inv hAdd
  obtain ⟨b180, b48, b32, b16, b192, b512, b150,
    e180, e48, e32, e16, e192, e512, e150, hroutes⟩ := addAll_ok_inv hAll
  subst hroutes
  refine ⟨by simp, by simp, ?_⟩
  simp only [List.map]
  decide

/-- Witness for `c9_nine_distinct_routes`. -/
theorem c9_witness :
    Add okImaging rgRoot oApp = ((Add okImaging rgRoot oApp).1, none) ∧
    ((Add okImaging rgRoot oApp).1.map Route.path =
      ["/apple-touch-icon.png", "/favicon.png", "/favicon-32x32.png",
       "/favicon-16x16.png", "/site.webmanifest", "/android-chrome-192x192.png",
       "/android-chrome-512x512.png", "/browserconfig.xml", "/mstile-150x150.png"] ∧
     (Add okImaging rgRoot oApp).1.length = 9 ∧
     ((Add okImaging rgRoot oApp).1.map Route.path).Nodup) :=
  ⟨by rfl,
    c9_nine_distinct_routes okImaging rgRoot oApp (Add okImaging rgRoot oApp).1 (by rfl)⟩

/-! ## Claim C7 -/

/-- C7: with display, theme color, background color and start URL unset,
the served manifest has display "standalone", theme and background color
"#ffffff", and the marshalled document has no start_url field at all
(`omitempty` drops the field, it is not emitted as an empty string). -/
theorem c7_manifest_field_defaults {Img : Type} (M : Imaging Img) (r : RouterGroup)
    (o : Options) (routes : List Route)
    (hD : o.Display = "") (_hT : o.ThemeColor = "") (_hB : o.BackgroundColor = "")
    (hS : o.StartURL = "") (hAdd : Add M r o = (routes, none)) :
    (buildWebmanifest r o).Display = "standalone" ∧
    (buildWebmanifest r o).ThemeColor = "#ffffff" ∧
    (buildWebmanifest r o).BackgroundColor = "#ffffff" ∧
    "start_url" ∉ (webmanifestFields (buildWebmanifest r o)).map Prod.fst ∧
    Route.mk "/site.webmanifest" "application/manifest+json"
      (strBytes (marshalWebmanifest (buildWebmanifest r o))) ∈ routes := by
  obtain ⟨fav, ati, hfav, hati, hAll⟩ := Add_ok_inv hAdd
  obtain ⟨b180, b48, b32, b16, b192, b512, b150,
    e180, e48, e32, e16, e192, e512, e150, hroutes⟩ := addAll_ok_inv hAll
  subst hroutes
  have hSU : (buildWebmanifest r o).StartURL = "" := by
    simp [buildWebmanifest, hD, hS]
  refine ⟨by simp [buildWebmanifest, hD], by simp [buildWebmanifest, hD],
    by simp [buildWebmanifest, hD], by simp [webmanifestFields, hSU], by simp⟩

/-- Witness for `c7_manifest_field_defaults`. -/
theorem c7_witness :
    oApp.Display = "" ∧ oApp.ThemeColor = "" ∧ oApp.BackgroundColor = "" ∧
    oApp.StartURL = "" ∧
    Add okImaging rgRoot oApp = ((Add okImaging rgRoot oApp).1, none) ∧
    ((buildWebmanifest rgRoot oApp).Display = "standalone" ∧
     (buildWebmanifest rgRoot oApp).ThemeColor = "#ffffff" ∧
     (buildWebmanifest rgRoot oApp).BackgroundColor = "#ffffff" ∧
     "start_url" ∉ (webmanifestFields (buildWebmanifest rgRoot oApp)).map Prod.fst ∧
     Route.mk "/site.webmanifest" "application/manifest+json"
       (strBytes (marshalWebmanifest (buildWebmanifest rgRoot oApp))) ∈
         (Add okImaging rgRoot oApp).1) :=
  ⟨rfl, rfl, rfl, rfl, by rfl,
    c7_manifest_field_defaults okImaging rgRoot oApp (Add okImaging rgRoot oApp).1
      rfl rfl rfl rfl (by rfl)⟩

/-! ## Claim C8 -/

/-- `String.data` distributes over append. -/
lemma data_append (a b : String) : (a ++ b).data = a.data ++ b.data := rfl

/-- C8: a successful setup serves at `/browserconfig.xml` the fixed XML
document around the resolved tile color (the configured one, or "#da532c"
when unset); the resolved tile color occurs in the document, and the fixed
head of the document — a closed constant, independent of the router group's
base path — contains the root-relative reference `/mstile-150x150.png`. -/
theorem c8_browserconfig_content {Img : Type} (M : Imaging Img) (r : RouterGroup)
    (o : Options) (routes : List Route) (hAdd : Add M r o = (routes, none)) :
    Route.mk "/browserconfig.xml" "application/xml"
      (strBytes (browserConfigDoc (if o.TileColor = "" then "#da532c" else o.TileColor))) ∈ routes ∧
    (if o.TileColor = "" then "#da532c" else o.TileColor).data <:+:
      (browserConfigDoc (if o.TileColor = "" then "#da532c" else o.TileColor)).data ∧
    "/mstile-150x150.png".data <:+: browserConfigHead.data := by
  obtain ⟨fav, ati, hfav, hati, hAll⟩ := Add_ok_inv hAdd
  obtain ⟨b180, b48, b32, b16, b192, b512, b150,
    e180, e48, e32, e16, e192, e512, e150, hroutes⟩ := addAll_ok_inv hAll
  subst hroutes
  refine ⟨by simp, ?_, by decide⟩
  exact ⟨browserConfigHead.data, browserConfigTail.data,
    by simp [browserConfigDoc, data_append]⟩

/-- Witness for `c8_browserconfig_content`. -/
theorem c8_witness :
    Add okImaging rgRoot oApp = ((Add okImaging rgRoot oApp).1, none) ∧
    (Route.mk "/browserconfig.xml" "application/xml"
       (strBytes (browserConfigDoc (if oApp.TileColor = "" then "#da532c" else oApp.TileColor))) ∈
         (Add okImaging rgRoot oApp).1 ∧
     (if oApp.TileColor = "" then "#da532c" else oApp.TileColor).data <:+:
       (browserConfigDoc (if oApp.TileColor = "" then "#da532c" else oApp.TileColor)).data ∧
     "/mstile-150x150.png".data <:+: browserConfigHead.data) :=
  ⟨by rfl,
    c8_browserconfig_content okImaging rgRoot oApp (Add okImaging rgRoot oApp).1 (by rfl)⟩

/-! ## Claim C2 -/

/-- C2: the code never applies the documented ShortName-falls-back-to-Name
default. With Name "App" and ShortName unset, the served manifest document
has `"short_name":""`, not `"short_name":"App"` — contradicting the
`Options.ShortName` doc comment ("If empty, [Options.Name] will be used"). -/
theorem c2_short_name_served_empty :
    oApp.Name = "App" ∧ oApp.ShortName = "" ∧
    marshalWebmanifest (buildWebmanifest rgRoot oApp) =
      "\x7b\"name\":\"App\",\"short_name\":\"\",\"display\":\"standalone\",\"background_color\":\"#ffffff\",\"theme_color\":\"#ffffff\",\"icons\":[\x7b\"src\":\"/android-chrome-192x192.png\",\"sizes\":\"192x192\",\"type\":\"image/png\"\x7d,\x7b\"src\":\"//android-chrome-512x512.png\",\"sizes\":\"512x512\",\"type\":\"image/png\"\x7d]\x7d" ∧
    (Add okImaging rgRoot oApp).1.get? 4 =
      some (Route.mk "/site.webmanifest" "application/manifest+json"
        (strBytes (marshalWebmanifest (buildWebmanifest rgRoot oApp)))) :=
  ⟨rfl, rfl, by rfl, by rfl⟩

/-! ## Claim C3 -/

/-- C3: the manifest icon srcs at base path "/icons". The 192×192 src has
exactly one separator between prefix and filename, but the 512×512 src is
built as `path + "/android-chrome-512x512.png"` after `path` was already
normalized to end in "/", so it carries a doubled separator. -/
theorem c3_doubled_separator_in_512_src :
    (buildWebmanifest (RouterGroup.mk "/icons") oApp).Icons.map webmanifestIcon.Src =
      ["/icons/android-chrome-192x192.png", "/icons//android-chrome-512x512.png"] ∧
    ¬ (buildWebmanifest (RouterGroup.mk "/icons") oApp).Icons.map webmanifestIcon.Src =
      ["/icons/android-chrome-192x192.png", "/icons/android-chrome-512x512.png"] :=
  ⟨by rfl, by decide⟩

end Favicon
